import Mathlib

/-!
Shallow embedding of `src/bot.py` (Cloud-Music Telegram bot).

The bot keeps two pieces of process-wide mutable state: `monthly_users`
(a set of user ids inserted by `/start`) and `pending_songs` (a map from
user id to the last free-text song query).  Handlers are modelled as pure
functions from the state (plus the oracles standing for the external
collaborators: the clock, yt-dlp, and the chat API, each of which may
fail) to the new state together with the list of attempted external calls.
-/

namespace CloudMusic

/-- The yt-dlp option dictionary built in `handle_option`. -/
structure YdlOpts where
  quiet : Bool
  format : String
  outtmpl : String
  cookiefile : Option String
deriving DecidableEq, Repr

/-- The result of a successful `ydl.extract_info` + `prepare_filename`:
the local file name and the optional display title. -/
structure FetchResult where
  filename : String
  title : Option String
deriving DecidableEq, Repr

/-- One attempted external call (chat API or yt-dlp), in program order. -/
inductive Action where
  | answerCallback : Action
  | editMessageText (text : String) : Action
  | sendChatActionTyping : Action
  | extractInfo (url : String) (opts : YdlOpts) : Action
  | sendAudio (file : String) (title : Option String) : Action
  | sendVideo (file : String) (caption : Option String) : Action
  | replyText (text : String) : Action
  | replyWithButtons (text : String) (buttons : List (String × String)) : Action
  | removeFile (file : String) : Action
deriving DecidableEq, Repr

/-- The process-wide mutable state: `monthly_users` and `pending_songs`. -/
structure BotState where
  monthly_users : Finset ℕ
  pending_songs : ℕ → Option String

/-- The empty state at process start (`set()` and the empty dict). -/
def initState : BotState := ⟨∅, fun _ => none⟩

/-- Whether an external call raised (`Except.error` models a raised
exception caught by the handler's `try`). -/
def errored {α : Type} : Except Unit α → Bool
  | Except.error _ => true
  | Except.ok _ => false

/-- Python float modulo: `x % y = x - y * floor(x / y)`. -/
def pyMod (x y : ℚ) : ℚ := x - y * (⌊x / y⌋ : ℚ)

/-- `hour = datetime.utcnow().hour + 5.5; hour = int(hour % 24)` —
the truncated local hour computed from the integer UTC hour. -/
def local_hour (utcHour : ℕ) : ℕ := (⌊pyMod ((utcHour : ℚ) + 5.5) 24⌋).toNat

/-- The greeting band chosen from the computed local hour
(the if/elif chain in `get_greeting`). -/
def greeting_band (hour : ℕ) : String :=
  if 5 ≤ hour ∧ hour < 12 then "🌅 Good Morning"
  else if 12 ≤ hour ∧ hour < 17 then "🌞 Good Afternoon"
  else if 17 ≤ hour ∧ hour < 21 then "🌇 Good Evening"
  else "🌙 Good Night"

/-- `get_greeting(username)`, with the clock's UTC hour as a parameter. -/
def get_greeting (utcHour : ℕ) (username : String) : String :=
  greeting_band (local_hour utcHour) ++ ", @" ++ username ++ "!"

/-- `/start`: insert the user into `monthly_users`, send greeting + prompt. -/
def start (st : BotState) (user_id : ℕ) (username : String) (utcHour : ℕ) :
    BotState × List Action :=
  ({ st with monthly_users := insert user_id st.monthly_users },
   [Action.replyText (get_greeting utcHour username
      ++ "\n\nSend me the name of the song you want 🎶")])

/-- Free-text message: store it as the pending song (overwriting), and
present the three format buttons. -/
def handle_song_name (st : BotState) (user_id : ℕ) (text : String) :
    BotState × List Action :=
  ({ st with pending_songs := Function.update st.pending_songs user_id (some text) },
   [Action.replyWithButtons ("Select what to receive for *" ++ text ++ "*:")
      [("🎵 Music", "music"), ("🎬 Video", "video"), ("🎶 Both", "both")]])

/-- `/stats`: report the cardinality of `monthly_users`. -/
def stats (st : BotState) : BotState × List Action :=
  (st, [Action.replyText ("📊 Monthly active users: "
    ++ toString st.monthly_users.card)])

/-- yt-dlp options for `choice == "music"`. -/
def music_opts : YdlOpts :=
  ⟨true, "bestaudio[ext=m4a]/bestaudio", "%(title)s.%(ext)s", none⟩

/-- yt-dlp options for `choice == "video"` and for the `else` branch. -/
def video_opts : YdlOpts :=
  ⟨true, "bestvideo[height<=720]+bestaudio/best", "%(title)s.%(ext)s", none⟩

/-- Add `cookiefile` when `cookies.txt` exists. -/
def with_cookies (o : YdlOpts) (cookies_exist : Bool) : YdlOpts :=
  if cookies_exist then { o with cookiefile := some "cookies.txt" } else o

/-- The message edited in when no pending song exists. -/
def no_song_msg : String := "❌ No song found. Please send song name first."

/-- The generic failure reply of the `except` branch. -/
def fail_msg : String := "❌ Failed to fetch the song. Please try again."

/-- How a Python f-string renders `info.get("title")`. -/
def title_str : Option String → String
  | some t => t
  | none => "None"

/-- Body of `handle_option` once a non-empty pending song exists: edit the
message, send typing, build the options, then the `try` block (fetch, the
format-dependent sends, the confirmation reply, file cleanup, and the pop
of the pending entry); any raise inside the `try` lands in the `except`
branch, which replies `fail_msg` and leaves the state untouched. -/
def option_with_song (st : BotState) (user_id : ℕ) (choice song_name : String)
    (cookies_exist : Bool) (fetch_res : Except Unit FetchResult)
    (audio_res video_res reply_res : Except Unit Unit) (file_exists : Bool) :
    BotState × List Action :=
  let ydl_opts := with_cookies
    (if choice == "music" then music_opts else video_opts) cookies_exist
  let pre := [Action.answerCallback,
    Action.editMessageText ("⏳ Downloading " ++ choice ++ " for *" ++ song_name ++ "*..."),
    Action.sendChatActionTyping,
    Action.extractInfo ("ytsearch1:" ++ song_name) ydl_opts]
  match fetch_res with
  | Except.error _ => (st, pre ++ [Action.replyText fail_msg])
  | Except.ok info =>
    let want_audio := choice == "music" || choice == "both"
    let want_video := choice == "video" || choice == "both"
    if want_audio && errored audio_res then
      (st, pre ++ [Action.sendAudio info.filename info.title, Action.replyText fail_msg])
    else
      let audio_acts := if want_audio then [Action.sendAudio info.filename info.title] else []
      if want_video && errored video_res then
        (st, pre ++ audio_acts
          ++ [Action.sendVideo info.filename info.title, Action.replyText fail_msg])
      else
        let video_acts := if want_video then [Action.sendVideo info.filename info.title] else []
        if errored reply_res then
          (st, pre ++ audio_acts ++ video_acts
            ++ [Action.replyText ("✅ Delivered: " ++ title_str info.title),
                Action.replyText fail_msg])
        else
          ({ st with pending_songs := Function.update st.pending_songs user_id none },
           pre ++ audio_acts ++ video_acts
             ++ [Action.replyText ("✅ Delivered: " ++ title_str info.title)]
             ++ (if file_exists then [Action.removeFile info.filename] else []))

/-- Callback handler `handle_option`: guard on the pending song (`if not
song_name` also fires on the empty string), else run the download flow. -/
def handle_option (st : BotState) (user_id : ℕ) (choice : String)
    (cookies_exist : Bool) (fetch_res : Except Unit FetchResult)
    (audio_res video_res reply_res : Except Unit Unit) (file_exists : Bool) :
    BotState × List Action :=
  match st.pending_songs user_id with
  | none => (st, [Action.answerCallback, Action.editMessageText no_song_msg])
  | some song_name =>
    if song_name == "" then
      (st, [Action.answerCallback, Action.editMessageText no_song_msg])
    else
      option_with_song st user_id choice song_name cookies_exist fetch_res
        audio_res video_res reply_res file_exists

/-- Whether the whole `try` block of `handle_option` runs without a raise
for the given choice and oracle outcomes. -/
def option_success (choice : String) (fetch_res : Except Unit FetchResult)
    (audio_res video_res reply_res : Except Unit Unit) : Bool :=
  !errored fetch_res
  && !((choice == "music" || choice == "both") && errored audio_res)
  && !((choice == "video" || choice == "both") && errored video_res)
  && !errored reply_res

/-- The yt-dlp invocations recorded in an action trace. -/
def fetch_calls (as : List Action) : List (String × YdlOpts) :=
  as.filterMap fun a => match a with
    | Action.extractInfo q o => some (q, o)
    | _ => none

/-- The media-delivery calls (send-audio / send-video) in an action trace. -/
def sent_media (as : List Action) : List Action :=
  as.filter fun a => match a with
    | Action.sendAudio _ _ => true
    | Action.sendVideo _ _ => true
    | _ => false

/-- Value reported by `/stats`: `len(monthly_users)`. -/
def stats_value (st : BotState) : ℕ := st.monthly_users.card

/-- One inbound update, as classified by the dispatcher, with the oracle
outcomes an `option` update will encounter. -/
inductive Event where
  | start (user_id : ℕ) (username : String) (utcHour : ℕ) : Event
  | song (user_id : ℕ) (text : String) : Event
  | option (user_id : ℕ) (choice : String) (cookies_exist : Bool)
      (fetch_res : Except Unit FetchResult)
      (audio_res video_res reply_res : Except Unit Unit)
      (file_exists : Bool) : Event
  | statsReq : Event

/-- Dispatcher: route one update to its handler and keep the new state. -/
def step (st : BotState) (e : Event) : BotState :=
  match e with
  | Event.start u n h => (start st u n h).1
  | Event.song u t => (handle_song_name st u t).1
  | Event.option u c ce f a v r fe => (handle_option st u c ce f a v r fe).1
  | Event.statsReq => (stats st).1

/-- Process a list of updates in order. -/
def runTrace : BotState → List Event → BotState
  | st, [] => st
  | st, e :: es => runTrace (step st e) es

/-- The set of users that issued `/start` in a trace. -/
def start_users : List Event → Finset ℕ
  | [] => ∅
  | Event.start u _ _ :: es => insert u (start_users es)
  | Event.song _ _ :: es => start_users es
  | Event.option _ _ _ _ _ _ _ _ :: es => start_users es
  | Event.statsReq :: es => start_users es

/-- An HTTP response of the FastAPI app: status code and the boolean of
the returned body. -/
structure HttpResponse where
  status : ℕ
  body_ok : Bool
deriving DecidableEq, Repr

/-- `POST /webhook`: parse the update, spawn its processing as a
background task (returned as deferred work, not awaited), and return the
acknowledgement immediately. -/
def telegram_webhook (st : BotState) (update : Event) :
    HttpResponse × (BotState × Event) :=
  (⟨200, true⟩, (st, update))

/-- A concrete state with one pending song, for witnesses. -/
def stW : BotState := ⟨∅, fun u => if u = 7 then some "shape of you" else none⟩

/-- A concrete successful fetch outcome, for witnesses. -/
def okF : Except Unit FetchResult := Except.ok ⟨"Shape of You.m4a", some "Shape of You"⟩

/-- A concrete successful chat-API outcome, for witnesses. -/
def okU : Except Unit Unit := Except.ok ()

/-- Modelled from the claim's words for comparison: the local hour obtained
by shifting the full UTC time (hour and minute) forward by 5.5 hours and
taking the hour of the shifted time modulo 24. -/
def claim_local_hour (utcHour utcMinute : ℕ) : ℕ :=
  ((utcHour * 60 + utcMinute + 330) % 1440) / 60

/-- A raised exception is recorded as `errored`. -/
@[simp] lemma errored_error {α : Type} (e : Unit) :
    errored (Except.error e : Except Unit α) = true := rfl

/-- A normal return is not `errored`. -/
@[simp] lemma errored_ok {α : Type} (x : α) :
    errored (Except.ok x : Except Unit α) = false := rfl

/-- With no pending song, `handle_option` only answers and edits the message. -/
lemma handle_option_none (st : BotState) (u : ℕ) (choice : String)
    (ce : Bool) (f : Except Unit FetchResult) (a v r : Except Unit Unit) (fe : Bool)
    (hq : st.pending_songs u = none) :
    handle_option st u choice ce f a v r fe =
      (st, [Action.answerCallback, Action.editMessageText no_song_msg]) := by
  simp [handle_option, hq]

/-- With a non-empty pending song, `handle_option` runs the download flow. -/
lemma handle_option_some (st : BotState) (u : ℕ) (choice : String)
    (ce : Bool) (f : Except Unit FetchResult) (a v r : Except Unit Unit) (fe : Bool)
    (q : String) (hq : st.pending_songs u = some q) (hne : q ≠ "") :
    handle_option st u choice ce f a v r fe =
      option_with_song st u choice q ce f a v r fe := by
  simp [handle_option, hq, hne]

/-- The state after the download flow: the pending entry is popped exactly
when the whole `try` block succeeded, else the state is untouched. -/
lemma option_with_song_state (st : BotState) (u : ℕ) (choice q : String)
    (ce : Bool) (f : Except Unit FetchResult) (a v r : Except Unit Unit) (fe : Bool) :
    (option_with_song st u choice q ce f a v r fe).1 =
      if option_success choice f a v r then
        { st with pending_songs := Function.update st.pending_songs u none }
      else st := by
  rcases f with e | info <;> rcases a with e1 | u1 <;> rcases v with e2 | u2 <;>
    rcases r with e3 | u3 <;> simp [option_with_song, option_success] <;>
    split_ifs <;> simp_all

/-- Any raise inside the `try` block produces the generic failure reply. -/
lemma option_with_song_fail_mem (st : BotState) (u : ℕ) (choice q : String)
    (ce : Bool) (f : Except Unit FetchResult) (a v r : Except Unit Unit) (fe : Bool)
    (h : option_success choice f a v r = false) :
    Action.replyText fail_msg ∈ (option_with_song st u choice q ce f a v r fe).2 := by
  rcases f with e | info <;> rcases a with e1 | u1 <;> rcases v with e2 | u2 <;>
    rcases r with e3 | u3 <;> simp_all [option_with_song, option_success] <;>
    split_ifs <;> simp_all

/-- The download flow calls yt-dlp exactly once, on the chosen options. -/
lemma option_with_song_fetch_calls (st : BotState) (u : ℕ) (choice q : String)
    (ce : Bool) (f : Except Unit FetchResult) (a v r : Except Unit Unit) (fe : Bool) :
    fetch_calls (option_with_song st u choice q ce f a v r fe).2 =
      [("ytsearch1:" ++ q,
        with_cookies (if choice == "music" then music_opts else video_opts) ce)] := by
  rcases f with e | info <;> rcases a with e1 | u1 <;> rcases v with e2 | u2 <;>
    rcases r with e3 | u3 <;> simp [option_with_song, fetch_calls] <;>
    split_ifs <;> simp [fetch_calls]

/-- A choice that is none of the three known tokens sends no media at all. -/
lemma option_with_song_sent_media_unknown (st : BotState) (u : ℕ) (choice q : String)
    (ce : Bool) (f : Except Unit FetchResult) (a v r : Except Unit Unit) (fe : Bool)
    (hm : (choice == "music") = false) (hv : (choice == "video") = false)
    (hb : (choice == "both") = false) :
    sent_media (option_with_song st u choice q ce f a v r fe).2 = [] := by
  rcases f with e | info <;>
    simp [option_with_song, sent_media, hm, hv, hb] <;> split_ifs <;> simp [sent_media]

/-- On a fully successful flow the confirmation reply names the title. -/
lemma option_with_song_delivered (st : BotState) (u : ℕ) (choice q : String)
    (ce : Bool) (f : Except Unit FetchResult) (a v r : Except Unit Unit) (fe : Bool)
    (info : FetchResult)
    (hsucc : option_success choice f a v r = true) (hf : f = Except.ok info) :
    Action.replyText ("✅ Delivered: " ++ title_str info.title) ∈
      (option_with_song st u choice q ce f a v r fe).2 := by
  subst hf
  rcases a with e1 | u1 <;> rcases v with e2 | u2 <;> rcases r with e3 | u3 <;>
    simp_all [option_with_song, option_success] <;> split_ifs <;> simp_all

/-- For choice `both`, a fully successful flow attempts both the audio and
the video send, on the single fetched file. -/
lemma option_with_song_both_sends (st : BotState) (u : ℕ) (q : String)
    (ce : Bool) (f : Except Unit FetchResult) (a v r : Except Unit Unit) (fe : Bool)
    (info : FetchResult)
    (hf : f = Except.ok info) (hsucc : option_success "both" f a v r = true) :
    Action.sendAudio info.filename info.title ∈
        (option_with_song st u "both" q ce f a v r fe).2
    ∧ Action.sendVideo info.filename info.title ∈
        (option_with_song st u "both" q ce f a v r fe).2 := by
  subst hf
  rcases a with e1 | u1 <;> rcases v with e2 | u2 <;> rcases r with e3 | u3 <;>
    simp_all [option_with_song, option_success] <;> split_ifs <;> simp_all

/-- `handle_option` either leaves the state alone or, exactly on a fully
successful flow, pops the user's pending entry. -/
lemma handle_option_state (st : BotState) (u : ℕ) (choice : String)
    (ce : Bool) (f : Except Unit FetchResult) (a v r : Except Unit Unit) (fe : Bool) :
    (handle_option st u choice ce f a v r fe).1 = st
    ∨ ((handle_option st u choice ce f a v r fe).1 =
        { st with pending_songs := Function.update st.pending_songs u none }
       ∧ option_success choice f a v r = true) := by
  rcases hp : st.pending_songs u with _ | q
  · rw [handle_option_none st u choice ce f a v r fe hp]
    left; rfl
  · by_cases hq : q = ""
    · subst hq
      left
      simp [handle_option, hp]
    · rw [handle_option_some st u choice ce f a v r fe q hp hq, option_with_song_state]
      cases hsucc : option_success choice f a v r with
      | false => left; simp
      | true => right; simp

/-- `handle_option` never touches `monthly_users`. -/
lemma handle_option_monthly (st : BotState) (u : ℕ) (choice : String)
    (ce : Bool) (f : Except Unit FetchResult) (a v r : Except Unit Unit) (fe : Bool) :
    (handle_option st u choice ce f a v r fe).1.monthly_users = st.monthly_users := by
  rcases handle_option_state st u choice ce f a v r fe with h | ⟨h, _⟩ <;> rw [h]

/-- The user set after a trace is the initial set plus the `/start` users. -/
lemma runTrace_monthly (es : List Event) (st : BotState) :
    (runTrace st es).monthly_users = st.monthly_users ∪ start_users es := by
  induction es generalizing st with
  | nil => simp [runTrace, start_users]
  | cons e es ih =>
    cases e with
    | start u n hh =>
      rw [runTrace, ih]
      simp [step, CloudMusic.start, start_users, Finset.insert_union, Finset.union_insert]
    | song u t =>
      rw [runTrace, ih]
      simp [step, handle_song_name, start_users]
    | option u c ce f a v r fe =>
      rw [runTrace, ih]
      simp [step, start_users, handle_option_monthly]
    | statsReq =>
      rw [runTrace, ih]
      simp [step, stats, start_users]

/-- No single update can shrink the user set. -/
lemma stats_value_step_le (st : BotState) (e : Event) :
    stats_value st ≤ stats_value (step st e) := by
  cases e with
  | start u n hh =>
    simpa [step, CloudMusic.start, stats_value] using
      Finset.card_le_card (Finset.subset_insert u st.monthly_users)
  | song u t => simp [step, handle_song_name, stats_value]
  | option u c ce f a v r fe => simp [step, stats_value, handle_option_monthly]
  | statsReq => simp [step, stats, stats_value]

/-- C1: for a user with a stored non-empty pending query, a fully
successful option-chosen flow (fetch, deliveries, confirmation) pops that
user's pending entry, while a fetch or delivery raise sends the generic
failure reply and leaves the whole state — in particular that pending
query — unchanged, so re-selecting a format retries the same query. -/
theorem c1_success_clears_failure_retains (st : BotState) (u : ℕ)
    (choice : String) (ce : Bool) (f : Except Unit FetchResult)
    (a v r : Except Unit Unit) (fe : Bool) (q : String)
    (hq : st.pending_songs u = some q) (hne : q ≠ "") :
    (option_success choice f a v r = true →
      (handle_option st u choice ce f a v r fe).1.pending_songs u = none)
    ∧ (errored f = true
        ∨ ((choice == "music" || choice == "both") = true ∧ errored a = true)
        ∨ ((choice == "video" || choice == "both") = true ∧ errored v = true) →
      (handle_option st u choice ce f a v r fe).1 = st
      ∧ Action.replyText fail_msg ∈ (handle_option st u choice ce f a v r fe).2) := by
  rw [handle_option_some st u choice ce f a v r fe q hq hne]
  constructor
  · intro hsucc
    rw [option_with_song_state]
    simp [hsucc]
  · intro hfail
    have hns : option_success choice f a v r = false := by
      rcases hfail with h1 | ⟨h2a, h2b⟩ | ⟨h3a, h3b⟩ <;> simp [option_success, *]
    refine ⟨?_, option_with_song_fail_mem st u choice q ce f a v r fe hns⟩
    rw [option_with_song_state]
    simp [hns]

/-- Witness for C1 at a concrete state, user, choice and oracle outcomes. -/
theorem c1_witness :
    stW.pending_songs 7 = some "shape of you" ∧ ("shape of you" : String) ≠ ""
    ∧ ((option_success "music" okF okU okU okU = true →
          (handle_option stW 7 "music" false okF okU okU okU true).1.pending_songs 7 = none)
       ∧ (errored okF = true
            ∨ (("music" == "music" || "music" == "both") = true ∧ errored okU = true)
            ∨ (("music" == "video" || "music" == "both") = true ∧ errored okU = true) →
          (handle_option stW 7 "music" false okF okU okU okU true).1 = stW
          ∧ Action.replyText fail_msg ∈ (handle_option stW 7 "music" false okF okU okU okU true).2)) :=
  ⟨rfl, by decide,
   c1_success_clears_failure_retains stW 7 "music" false okF okU okU okU true
     "shape of you" rfl (by decide)⟩

/-- C2: with no stored pending query, choosing any format only answers the
callback and edits the prompt to the no-song report; the state (session
store and usage counter) is unchanged and yt-dlp is never invoked. -/
theorem c2_no_pending_no_fetch (st : BotState) (u : ℕ) (choice : String)
    (ce : Bool) (f : Except Unit FetchResult) (a v r : Except Unit Unit) (fe : Bool)
    (hq : st.pending_songs u = none) :
    handle_option st u choice ce f a v r fe =
      (st, [Action.answerCallback, Action.editMessageText no_song_msg])
    ∧ fetch_calls (handle_option st u choice ce f a v r fe).2 = [] := by
  have h := handle_option_none st u choice ce f a v r fe hq
  exact ⟨h, by rw [h]; rfl⟩

/-- Witness for C2 at the initial state, where no query is pending. -/
theorem c2_witness :
    initState.pending_songs 7 = none
    ∧ (handle_option initState 7 "music" false okF okU okU okU true =
        (initState, [Action.answerCallback, Action.editMessageText no_song_msg])
       ∧ fetch_calls (handle_option initState 7 "music" false okF okU okU okU true).2 = []) :=
  ⟨rfl, c2_no_pending_no_fetch initState 7 "music" false okF okU okU okU true rfl⟩

/-- C3 counterexample: with a stored query and choice `both`, yt-dlp is
invoked once, not twice — the claimed pair of independent calls (audio-only
and video-with-audio) does not happen. -/
theorem c3_counterexample :
    (fetch_calls (handle_option stW 7 "both" false okF okU okU okU true).2).length ≠ 2
    ∧ (fetch_calls (handle_option stW 7 "both" false okF okU okU okU true).2).length = 1 := by
  constructor <;> decide

/-- C3 as amended: for choice `both`, yt-dlp is invoked exactly once, with
the video-with-audio format request, and on a fully successful flow both
the audio and the video delivery are attempted from that one fetched file. -/
theorem c3_single_fetch_both (st : BotState) (u : ℕ)
    (ce : Bool) (f : Except Unit FetchResult) (a v r : Except Unit Unit) (fe : Bool)
    (q : String) (hq : st.pending_songs u = some q) (hne : q ≠ "") :
    fetch_calls (handle_option st u "both" ce f a v r fe).2 =
      [("ytsearch1:" ++ q, with_cookies video_opts ce)]
    ∧ (∀ info, f = Except.ok info → option_success "both" f a v r = true →
        Action.sendAudio info.filename info.title ∈
            (handle_option st u "both" ce f a v r fe).2
        ∧ Action.sendVideo info.filename info.title ∈
            (handle_option st u "both" ce f a v r fe).2) := by
  rw [handle_option_some st u "both" ce f a v r fe q hq hne]
  constructor
  · rw [option_with_song_fetch_calls]
    rfl
  · intro info hf hsucc
    exact option_with_song_both_sends st u q ce f a v r fe info hf hsucc

/-- Witness for C3's amended theorem at a concrete state and oracles. -/
theorem c3_witness :
    stW.pending_songs 7 = some "shape of you" ∧ ("shape of you" : String) ≠ ""
    ∧ (fetch_calls (handle_option stW 7 "both" false okF okU okU okU true).2 =
        [("ytsearch1:" ++ "shape of you", with_cookies video_opts false)]
       ∧ (∀ info, okF = Except.ok info → option_success "both" okF okU okU okU = true →
            Action.sendAudio info.filename info.title ∈
                (handle_option stW 7 "both" false okF okU okU okU true).2
            ∧ Action.sendVideo info.filename info.title ∈
                (handle_option stW 7 "both" false okF okU okU okU true).2)) :=
  ⟨rfl, by decide,
   c3_single_fetch_both stW 7 false okF okU okU okU true "shape of you" rfl (by decide)⟩

/-- C4: the greeting band is Morning exactly on hours 5 to 11, Afternoon
exactly on 12 to 16, Evening exactly on 17 to 20, and Night exactly on the
remaining hours (21 onward and 0 to 4). -/
theorem c4_greeting_bands (h : ℕ) :
    (greeting_band h = "🌅 Good Morning" ↔ 5 ≤ h ∧ h < 12)
    ∧ (greeting_band h = "🌞 Good Afternoon" ↔ 12 ≤ h ∧ h < 17)
    ∧ (greeting_band h = "🌇 Good Evening" ↔ 17 ≤ h ∧ h < 21)
    ∧ (greeting_band h = "🌙 Good Night" ↔ (h < 5 ∨ 21 ≤ h)) := by
  unfold greeting_band
  split_ifs with h1 h2 h3 <;> simp_all <;> omega

/-- Witness for C4 at a boundary hour. -/
theorem c4_witness :
    (greeting_band 5 = "🌅 Good Morning" ↔ 5 ≤ 5 ∧ 5 < 12)
    ∧ (greeting_band 5 = "🌞 Good Afternoon" ↔ 12 ≤ 5 ∧ 5 < 17)
    ∧ (greeting_band 5 = "🌇 Good Evening" ↔ 17 ≤ 5 ∧ 5 < 21)
    ∧ (greeting_band 5 = "🌙 Good Night" ↔ (5 < 5 ∨ 21 ≤ 5)) :=
  c4_greeting_bands 5

/-- C5: `/stats` reports the cardinality of the usage set: 0 at process
start, the number of distinct users that issued `/start` after any trace
(repeats collapse), and no update ever decreases it. -/
theorem c5_stats_counts_start_users (es : List Event) (st : BotState) (e : Event) :
    stats_value initState = 0
    ∧ stats_value (runTrace initState es) = (start_users es).card
    ∧ stats_value st ≤ stats_value (step st e)
    ∧ (stats st).2 =
        [Action.replyText ("📊 Monthly active users: " ++ toString (stats_value st))] := by
  refine ⟨rfl, ?_, stats_value_step_le st e, rfl⟩
  simp [stats_value, runTrace_monthly, initState]

/-- Witness for C5 on a trace with a repeated user. -/
theorem c5_witness :
    stats_value initState = 0
    ∧ stats_value (runTrace initState
        [Event.start 1 "a" 0, Event.start 1 "a" 0, Event.start 2 "b" 0]) =
      (start_users [Event.start 1 "a" 0, Event.start 1 "a" 0, Event.start 2 "b" 0]).card
    ∧ stats_value initState ≤ stats_value (step initState Event.statsReq)
    ∧ (stats initState).2 =
        [Action.replyText ("📊 Monthly active users: " ++ toString (stats_value initState))] :=
  c5_stats_counts_start_users
    [Event.start 1 "a" 0, Event.start 1 "a" 0, Event.start 2 "b" 0] initState Event.statsReq

/-- C6 counterexample: at UTC 10:45 the code selects hour 15, while the
claimed full-time shift by 5.5 hours gives hour 16 — the offset is in fact
applied to the integer hour component only. -/
theorem c6_counterexample :
    local_hour 10 ≠ claim_local_hour 10 45
    ∧ local_hour 10 = 15 ∧ claim_local_hour 10 45 = 16 := by
  have h1 : local_hour 10 = 15 := by norm_num [local_hour, pyMod]; omega
  refine ⟨?_, h1, by norm_num [claim_local_hour]⟩
  rw [h1]
  norm_num [claim_local_hour]

/-- C6 as amended: the generator adds 5.5 to the integer UTC hour and
truncates, so the hour used equals the UTC hour plus 5, modulo 24; the
minutes of the UTC time never influence it. -/
theorem c6_hour_offset_truncated (h : ℕ) (hh : h < 24) :
    local_hour h = (h + 5) % 24 := by
  interval_cases h <;> norm_num [local_hour, pyMod] <;> omega

/-- Witness for C6's amended theorem at UTC hour 10. -/
theorem c6_witness : 10 < 24 ∧ local_hour 10 = (10 + 5) % 24 :=
  ⟨by decide, c6_hour_offset_truncated 10 (by decide)⟩

/-- C7: a free-text message stores the text as that user's pending query,
overwriting any previous one and touching no other user's entry nor the
usage counter, and presents exactly the three choices Music, Video, Both. -/
theorem c7_store_overwrite_three_choices (st : BotState) (u : ℕ) (text : String) :
    (handle_song_name st u text).1.pending_songs u = some text
    ∧ (∀ w, (handle_song_name st u text).1.pending_songs w =
        if w = u then some text else st.pending_songs w)
    ∧ (handle_song_name st u text).1.monthly_users = st.monthly_users
    ∧ (handle_song_name st u text).2 =
        [Action.replyWithButtons ("Select what to receive for *" ++ text ++ "*:")
          [("🎵 Music", "music"), ("🎬 Video", "video"), ("🎶 Both", "both")]] := by
  refine ⟨by simp [handle_song_name], fun w => ?_, rfl, rfl⟩
  by_cases hw : w = u <;> simp [handle_song_name, Function.update, hw]

/-- Witness for C7 at a concrete state with an older pending query. -/
theorem c7_witness :
    (handle_song_name stW 7 "despacito").1.pending_songs 7 = some "despacito"
    ∧ (∀ w, (handle_song_name stW 7 "despacito").1.pending_songs w =
        if w = 7 then some "despacito" else stW.pending_songs w)
    ∧ (handle_song_name stW 7 "despacito").1.monthly_users = stW.monthly_users
    ∧ (handle_song_name stW 7 "despacito").2 =
        [Action.replyWithButtons ("Select what to receive for *" ++ "despacito" ++ "*:")
          [("🎵 Music", "music"), ("🎬 Video", "video"), ("🎶 Both", "both")]] :=
  c7_store_overwrite_three_choices stW 7 "despacito"

/-- C8: the webhook handler acknowledges every update with status 200 and
body ok = true; the response is the same whatever state the dispatcher will
run in and whatever update — hence whatever outcome the deferred flow step
has — is being processed. -/
theorem c8_webhook_ack_constant (st : BotState) (e : Event) :
    (telegram_webhook st e).1 = HttpResponse.mk 200 true
    ∧ ∀ st' e', (telegram_webhook st e).1 = (telegram_webhook st' e').1 :=
  ⟨rfl, fun _ _ => rfl⟩

/-- Witness for C8 at a concrete state and update. -/
theorem c8_witness :
    (telegram_webhook initState Event.statsReq).1 = HttpResponse.mk 200 true
    ∧ ∀ st' e', (telegram_webhook initState Event.statsReq).1 =
        (telegram_webhook st' e').1 :=
  c8_webhook_ack_constant initState Event.statsReq

/-- C9 counterexample: for the unknown token `foo` with a stored query and
all-successful oracles, no audio and no video send is attempted at all —
the flow does not behave like `both`, which does attempt both sends. -/
theorem c9_counterexample :
    sent_media (handle_option stW 7 "foo" false okF okU okU okU true).2 = []
    ∧ sent_media (handle_option stW 7 "both" false okF okU okU okU true).2 ≠ [] := by
  constructor <;> decide

/-- C9 as amended: for a token that is none of music, video, both, the flow
fetches once with the video-with-audio options but attempts no media send;
on fetch and confirmation success it still replies with the delivered
title and pops the pending query. -/
theorem c9_unknown_choice_no_media (st : BotState) (u : ℕ) (choice : String)
    (ce : Bool) (f : Except Unit FetchResult) (a v r : Except Unit Unit) (fe : Bool)
    (q : String) (hq : st.pending_songs u = some q) (hne : q ≠ "")
    (hm : (choice == "music") = false) (hv : (choice == "video") = false)
    (hb : (choice == "both") = false) :
    fetch_calls (handle_option st u choice ce f a v r fe).2 =
      [("ytsearch1:" ++ q, with_cookies video_opts ce)]
    ∧ sent_media (handle_option st u choice ce f a v r fe).2 = []
    ∧ (∀ info, f = Except.ok info → errored r = false →
        (handle_option st u choice ce f a v r fe).1.pending_songs u = none
        ∧ Action.replyText ("✅ Delivered: " ++ title_str info.title) ∈
            (handle_option st u choice ce f a v r fe).2) := by
  rw [handle_option_some st u choice ce f a v r fe q hq hne]
  have hsuccIff : ∀ info, f = Except.ok info → errored r = false →
      option_success choice f a v r = true := by
    intro info hf hr
    subst hf
    simp [option_success, hm, hv, hb, hr]
  refine ⟨?_, option_with_song_sent_media_unknown st u choice q ce f a v r fe hm hv hb, ?_⟩
  · rw [option_with_song_fetch_calls, hm]
    simp
  · intro info hf hr
    have hsucc := hsuccIff info hf hr
    constructor
    · rw [option_with_song_state]
      simp [hsucc]
    · exact option_with_song_delivered st u choice q ce f a v r fe info hsucc hf

/-- Witness for C9's amended theorem at the concrete token `foo`. -/
theorem c9_witness :
    stW.pending_songs 7 = some "shape of you" ∧ ("shape of you" : String) ≠ ""
    ∧ ("foo" == "music") = false ∧ ("foo" == "video") = false ∧ ("foo" == "both") = false
    ∧ (fetch_calls (handle_option stW 7 "foo" false okF okU okU okU true).2 =
        [("ytsearch1:" ++ "shape of you", with_cookies video_opts false)]
       ∧ sent_media (handle_option stW 7 "foo" false okF okU okU okU true).2 = []
       ∧ (∀ info, okF = Except.ok info → errored okU = false →
            (handle_option stW 7 "foo" false okF okU okU okU true).1.pending_songs 7 = none
            ∧ Action.replyText ("✅ Delivered: " ++ title_str info.title) ∈
                (handle_option stW 7 "foo" false okF okU okU okU true).2)) :=
  ⟨rfl, by decide, by decide, by decide, by decide,
   c9_unknown_choice_no_media stW 7 "foo" false okF okU okU okU true "shape of you"
     rfl (by decide) (by decide) (by decide) (by decide)⟩

/-- C10: frame conditions — `start` and `stats` never touch the pending
map; `handle_song_name` and `handle_option` never touch the usage set;
`handle_song_name` only inserts the sender's entry; `handle_option` either
leaves the map unchanged or pops the caller's entry, and leaves it
unchanged whenever the flow is not fully successful. -/
theorem c10_frame_conditions (st : BotState) (u : ℕ) (name : String) (uh : ℕ)
    (t choice : String) (ce : Bool) (f : Except Unit FetchResult)
    (a v r : Except Unit Unit) (fe : Bool) :
    (start st u name uh).1.pending_songs = st.pending_songs
    ∧ (stats st).1 = st
    ∧ (handle_song_name st u t).1.monthly_users = st.monthly_users
    ∧ (handle_option st u choice ce f a v r fe).1.monthly_users = st.monthly_users
    ∧ (handle_song_name st u t).1.pending_songs =
        Function.update st.pending_songs u (some t)
    ∧ ((handle_option st u choice ce f a v r fe).1.pending_songs = st.pending_songs
        ∨ (handle_option st u choice ce f a v r fe).1.pending_songs =
            Function.update st.pending_songs u none)
    ∧ (option_success choice f a v r = false →
        (handle_option st u choice ce f a v r fe).1.pending_songs = st.pending_songs) := by
  refine ⟨rfl, rfl, rfl,
    handle_option_monthly st u choice ce f a v r fe, rfl, ?_, ?_⟩
  · rcases handle_option_state st u choice ce f a v r fe with h | ⟨h, _⟩ <;> rw [h]
    · left; rfl
    · right; rfl
  · intro hns
    rcases handle_option_state st u choice ce f a v r fe with h | ⟨h, hsucc⟩
    · rw [h]
    · rw [hsucc] at hns
      exact absurd hns (by simp)

/-- Witness for C10 at a concrete state, user and oracles. -/
theorem c10_witness :
    (start stW 7 "alice" 10).1.pending_songs = stW.pending_songs
    ∧ (stats stW).1 = stW
    ∧ (handle_song_name stW 7 "numb").1.monthly_users = stW.monthly_users
    ∧ (handle_option stW 7 "music" false okF okU okU okU true).1.monthly_users =
        stW.monthly_users
    ∧ (handle_song_name stW 7 "numb").1.pending_songs =
        Function.update stW.pending_songs 7 (some "numb")
    ∧ ((handle_option stW 7 "music" false okF okU okU okU true).1.pending_songs =
          stW.pending_songs
        ∨ (handle_option stW 7 "music" false okF okU okU okU true).1.pending_songs =
            Function.update stW.pending_songs 7 none)
    ∧ (option_success "music" okF okU okU okU = false →
        (handle_option stW 7 "music" false okF okU okU okU true).1.pending_songs =
          stW.pending_songs) :=
  c10_frame_conditions stW 7 "alice" 10 "numb" "music" false okF okU okU okU true

end CloudMusic
